import Mathlib

/-!
Shallow embedding of the navigation/focus core of the s3fm dual-pane file
browser, together with proofs of the spec's testable properties.

Source files embedded here:
- `s3fm/ui/filepane.py` (viewport recompute, scrolling, hidden-file filter,
  the `hist_dir` decorator, `forward`)
- `s3fm/api/history.py` (`Directory`, the bounded ordered map)
- `s3fm/api/kb.py` (action multiplier accumulation and consumption)
- `s3fm/app.py` (`pane_focus`, `pane_focus_other`, `pane_swap`)

Python integers are modelled as `Int` (with `Int.fdiv`/`Int.fmod` for
Python's floored `//` and `%`); code that can raise is modelled with
`Option` (`none` = an exception was raised at that point).
-/

namespace S3fm

/-- `s3fm.enums.PaneMode`. -/
inductive PaneMode
  | s3
  | fs
deriving DecidableEq, Repr

/-- `s3fm.enums.Pane`. -/
inductive Pane
  | left
  | right
  | cmd
  | error
deriving DecidableEq, Repr

/-- `s3fm.enums.LayoutMode`. -/
inductive LayoutMode
  | vertical
  | horizontal
  | single
deriving DecidableEq, Repr

/-- `s3fm.enums.Direction`. -/
inductive Direction
  | up
  | down
  | left
  | right
deriving DecidableEq, Repr

/-- `s3fm.enums.KBMode` (the modes used by the dispatch router). -/
inductive KBMode
  | normal
  | command
  | error
  | search
deriving DecidableEq, Repr

/-- `s3fm.enums.FileType`. -/
inductive FileType
  | bucket
  | dir
  | file
  | link
  | dir_link
  | exe
deriving DecidableEq, Repr

/-- `s3fm.api.fs.File` (the `raw` field is opaque and irrelevant here). -/
structure File where
  name : String
  type : FileType
  info : String
  hidden : Bool
  index : Nat
deriving DecidableEq, Repr

/-! ## Viewport state and the recompute performed by `FilePane._get_formatted_files` -/

/-- The mutable viewport fields of `FilePane`:
`_selected_file_index`, `_first_line`, `_last_line`. -/
structure Viewport where
  selected_file_index : Int
  first_line : Int
  last_line : Int
deriving DecidableEq, Repr

/-- Selection clamp at the top of `FilePane._get_formatted_files`
(filepane.py lines 286-289). -/
def clamp_selection (file_count sel : Int) : Int :=
  if sel < 0 then 0
  else if file_count ≤ sel then file_count - 1
  else sel

/-- Window re-anchor when the current window is smaller than
`min(file_count, height)` (filepane.py lines 291-293).  The pair is
`(first_line, last_line)`; the code sets `last = min(fc, h)` and then
`first = last - min(fc, h)`. -/
def window_resize (file_count height : Int) (w : Int × Int) : Int × Int :=
  if w.2 - w.1 < min file_count height then
    (min file_count height - min file_count height, min file_count height)
  else w

/-- Window re-anchor around the selection (filepane.py lines 295-300). -/
def window_anchor (file_count height sel : Int) (w : Int × Int) : Int × Int :=
  if sel ≤ w.1 then (sel, sel + min height file_count)
  else if w.2 ≤ sel then (sel + 1 - min height file_count, sel + 1)
  else w

/-- Final window clamp inside `[0, file_count]` (filepane.py lines 302-307);
the two `if`s run sequentially, the second one sees the first one's update. -/
def window_clamp (file_count height : Int) (w : Int × Int) : Int × Int :=
  let w1 := if file_count < w.2 then (file_count - min height file_count, file_count) else w
  if w1.1 < 0 then (0, 0 + min height file_count) else w1

/-- The full viewport recompute performed by `FilePane._get_formatted_files`
before rows are materialized (filepane.py lines 284-307).  Only runs when
`file_count > 0`; the caller returns early on an empty list. -/
def get_formatted_files (height file_count : Int) (s : Viewport) : Viewport :=
  let sel := clamp_selection file_count s.selected_file_index
  let w := window_clamp file_count height
    (window_anchor file_count height sel
      (window_resize file_count height (s.first_line, s.last_line)))
  ⟨sel, w.1, w.2⟩

/-! ## `FilePane.scroll_down` / `FilePane.scroll_up`

`none` models Python raising `ZeroDivisionError` in the cyclic branch when
`file_count == 0` (`% 0`).  `Int.fdiv`/`Int.fmod` are Python's `//`/`%`. -/

/-- `FilePane.scroll_down` (filepane.py lines 422-444), returning the new
`_selected_file_index`. -/
def scroll_down (cycle : Bool) (height file_count sel value : Int)
    (page bottom : Bool) : Option Int :=
  if bottom then some (file_count - 1)
  else
    let value := if page then height.fdiv 2 else value
    if cycle = true ∧ value = 1 then
      if file_count = 0 then none
      else some ((sel + 1).fmod file_count)
    else
      let sel := sel + value
      if file_count ≤ sel then some (file_count - 1) else some sel

/-- `FilePane.scroll_up` (filepane.py lines 446-466), returning the new
`_selected_file_index`. -/
def scroll_up (cycle : Bool) (height file_count sel value : Int)
    (page top : Bool) : Option Int :=
  if top then some 0
  else
    let value := if page then height.fdiv 2 else value
    if cycle = true ∧ value = 1 then
      if file_count = 0 then none
      else some ((sel - 1).fmod file_count)
    else
      let sel := sel - value
      if sel < 0 then some 0 else some sel

/-! ## Hidden-file filtering (`FilePane.filter_files`,
`FilePane.pane_toggle_hidden_files`, `FilePane.current_selection`) -/

/-- The pane fields involved in hidden-file filtering. -/
structure FilePaneState where
  files : List File
  filtered_files : List File
  display_hidden : Bool
  selected_file_index : Int
deriving DecidableEq, Repr

/-- `FilePane.filter_files` (filepane.py lines 551-564): recompute
`_filtered_files` from `_files` and the hidden flag.  Note the body touches
nothing else - in particular it does not move `_selected_file_index`. -/
def filter_files (st : FilePaneState) : FilePaneState :=
  if st.display_hidden then { st with filtered_files := st.files }
  else { st with filtered_files := st.files.filter (fun file => !file.hidden) }

/-- Python's `value or b` for an optional bool `value`: `None` and `False`
are falsy, so the result is `b` unless `value` is `True`. -/
def py_truthy_or (value : Option Bool) (b : Bool) : Bool :=
  match value with
  | some true => true
  | _ => b

/-- `FilePane.pane_toggle_hidden_files` (filepane.py lines 617-632):
`self.display_hidden_files = value or not self.display_hidden_files`,
then `filter_files`. -/
def pane_toggle_hidden_files (value : Option Bool) (st : FilePaneState) : FilePaneState :=
  filter_files { st with display_hidden := py_truthy_or value (!st.display_hidden) }

/-- Python list indexing `l[i]` as used by `current_selection`: non-negative
indices from the front, negative indices from the back, `none` = `IndexError`. -/
def py_list_get (l : List File) (i : Int) : Option File :=
  if 0 ≤ i then l[i.toNat]?
  else if (-i).toNat ≤ l.length then l[l.length - (-i).toNat]? else none

/-- `FilePane.current_selection` (filepane.py lines 710-720):
`self._files[self._filtered_files[self._selected_file_index].index]`,
returning `None` on `IndexError`. -/
def current_selection (st : FilePaneState) : Option File :=
  (py_list_get st.filtered_files st.selected_file_index).bind fun file =>
    py_list_get st.files (file.index : Int)

/-! ## `FilePane.forward` (filepane.py lines 500-529)

The two data-source adapters are abstracted as listing oracles
`fs_cd, s3_cd : String -> Option (List File)`: `fs_cd p` is the result of
`self._fs.cd(Path(p))` and `s3_cd p` of `self._s3.cd(p)`, with `none`
modelling a raised exception.  The overall result is the new `_files`
(`none` = an exception escaped the method). -/

/-- `FilePane.forward` for a pane in mode `mode`, at path `current_path`,
whose `current_selection` is `sel` (the `file_action` decorator turns a
missing selection into a no-op).  In fs mode a failed descend falls back to
`self._fs.cd(Path(current_path))`; in s3 mode the except branch (line 522)
also calls `self._fs.cd(Path(current_path))` - the fs adapter, not the s3
one. -/
def forward (mode : PaneMode) (fs_cd s3_cd : String → Option (List File))
    (current_path : String) (sel : Option File) (files : List File) :
    Option (List File) :=
  match sel with
  | none => some files
  | some f =>
    match mode with
    | .fs =>
      if f.type = .dir then
        match fs_cd f.name with
        | some r => some r
        | none => fs_cd current_path
      else some files
    | .s3 =>
      if f.type = .dir ∨ f.type = .bucket then
        match s3_cd f.name with
        | some r => some r
        | none => fs_cd current_path
      else some files

/-! ## `s3fm.api.history.Directory` - the bounded ordered map

Modelled as an association list in insertion order (head = oldest).
`OrderedDict` keys are unique; `Directory.__setitem__` first re-inserts an
existing key at the end (`move_to_end` + value overwrite), then evicts from
the front while over capacity. -/

/-- `Directory._check_size_limit`: pop the oldest entry while the size
exceeds `size_limit`. -/
def check_size_limit (size_limit : Nat) : List (String × Int) → List (String × Int)
  | [] => []
  | x :: xs => if size_limit < xs.length + 1 then check_size_limit size_limit xs else x :: xs

/-- `Directory.__setitem__` (history.py lines 35-39): move an existing key
to the end with the new value (or append a fresh key), then enforce the
size limit. -/
def directory_setitem (size_limit : Nat) (l : List (String × Int)) (k : String) (v : Int) :
    List (String × Int) :=
  let moved :=
    if l.any (fun p => p.1 == k) then l.filter (fun p => p.1 != k) ++ [(k, v)]
    else l ++ [(k, v)]
  check_size_limit size_limit moved

/-- `dict.get(k, default)` on the ordered map. -/
def directory_get (l : List (String × Int)) (k : String) (default : Int) : Int :=
  match l.find? (fun p => p.1 == k) with
  | some p => p.2
  | none => default

/-! ## The `hist_dir` decorator (filepane.py lines 29-60) -/

/-- The pane fields the `hist_dir` decorator touches: the current path of
the active data source, the selection index, and the shared
`History._directory` map with its capacity. -/
structure HistPaneState where
  path : String
  selected_file_index : Int
  directory : List (String × Int)
  size_limit : Nat
deriving DecidableEq, Repr

/-- The `hist_dir` decorator around a navigation step `nav`: record the
outgoing path's selection, run the navigation, then either restore the
pre-attempt record (path unchanged) or load the new path's remembered
index, defaulting to 0 (path changed). -/
def hist_dir (nav : HistPaneState → HistPaneState) (st : HistPaneState) : HistPaneState :=
  let curr_path := st.path
  let curr_result := directory_get st.directory curr_path 0
  let st1 := { st with
    directory := directory_setitem st.size_limit st.directory curr_path st.selected_file_index }
  let st2 := nav st1
  if st2.path = curr_path then
    { st2 with directory := directory_setitem st2.size_limit st2.directory curr_path curr_result }
  else
    { st2 with selected_file_index := directory_get st2.directory st2.path 0 }

/-! ## Action multiplier (`s3fm.api.kb.KB`)

Key handlers are wrapped by `KB.add` (kb.py lines 294-308): when the
bindings are not activated nothing runs; otherwise the handler runs and,
unless the binding was registered `raw` (only the digit keys are), the
multiplier is reset to `None` afterwards. -/

/-- `KB._pane_set_action_multiplier` (kb.py lines 184-189).  Python's
`if not self._action_multiplier` treats both `None` and `0` as unset;
otherwise the digit is appended in decimal. -/
def set_action_multiplier (d : Nat) (m : Option Nat) : Option Nat :=
  match m with
  | none => some d
  | some v => if v = 0 then some d else some (v * 10 + d)

/-- The KB state relevant to the multiplier, plus the focused pane's
selection index. -/
structure KBState where
  activated : Bool
  action_multiplier : Option Nat
  selected_file_index : Int
deriving DecidableEq, Repr

/-- Key events: a digit key (bound `raw`), the scroll-down action, or any
other non-digit action. -/
inductive KBEvent
  | digit (d : Nat)
  | scroll_key
  | other_action
deriving DecidableEq, Repr

/-- One key dispatch through the `KB.add` wrapper.  For `scroll_key` the
handler is `KB._pane_scroll_down` (kb.py lines 218-231): the caller-supplied
default count is 1, overridden by a truthy multiplier; the wrapper then
clears the multiplier (the binding is not `raw`).  `none` propagates a
`ZeroDivisionError` from `FilePane.scroll_down`. -/
def kb_step (cycle : Bool) (height file_count : Int) (st : KBState) :
    KBEvent → Option KBState
  | .digit d =>
    if st.activated then
      some { st with action_multiplier := set_action_multiplier d st.action_multiplier }
    else some st
  | .scroll_key =>
    if st.activated then
      let value : Int :=
        match st.action_multiplier with
        | some v => if v = 0 then 1 else (v : Int)
        | none => 1
      (scroll_down cycle height file_count st.selected_file_index value false false).map
        fun s => { st with selected_file_index := s, action_multiplier := none }
    else some st
  | .other_action =>
    if st.activated then some { st with action_multiplier := none } else some st

/-- Run a sequence of key events. -/
def kb_run (cycle : Bool) (height file_count : Int) (st : KBState)
    (events : List KBEvent) : Option KBState :=
  events.foldlM (kb_step cycle height file_count) st

/-! ## Focus/layout state machine (`s3fm.app.App`)

The two `FilePane` objects held in the `_left_pane`/`_right_pane` slots are
represented by identity tags.  After `pane_swap` exchanges the objects, the
follow-up tuple assignment writes the slot-conventional ids back into the
swapped objects, so the slot-id pairing is unchanged and only the object
identities move. -/

/-- The `App` fields `pane_swap`/`pane_focus`/`pane_focus_other` read or
write. -/
structure AppState where
  current_focus : Pane
  previous_focus : Option Pane
  filepane_focus : Pane
  layout_mode : LayoutMode
  kb_mode : KBMode
  left_pane : Nat
  right_pane : Nat
deriving DecidableEq, Repr

/-- `App.pane_focus` (app.py lines 186-205), without the prompt-toolkit
layout focus call (pure rendering). -/
def pane_focus (pane : Pane) (st : AppState) : AppState :=
  let st :=
    if pane = .left ∨ pane = .right then
      { st with kb_mode := .normal, filepane_focus := pane }
    else { st with kb_mode := .command }
  { st with previous_focus := some st.current_focus, current_focus := pane }

/-- `App.pane_focus_other` (app.py lines 207-219). -/
def pane_focus_other (st : AppState) : AppState :=
  if ¬st.layout_mode = .single then
    pane_focus (if st.current_focus = .right then .left else .right) st
  else st

/-- The `pane_swapped` flag computed in `App.pane_swap` (app.py lines
293-302); it only reads state that `pane_swap` has not yet mutated. -/
def pane_swapped (direction : Direction) (layout : LayoutMode) (st : AppState) : Prop :=
  ¬(st.current_focus = .right ∧ (direction = .right ∨ direction = .down) ∧
    ¬st.layout_mode = layout) ∧
  ¬(st.current_focus = .left ∧ (direction = .left ∨ direction = .up) ∧
    ¬st.layout_mode = layout)

instance (direction : Direction) (layout : LayoutMode) (st : AppState) :
    Decidable (pane_swapped direction layout st) := by
  unfold pane_swapped; infer_instance

/-- `App.pane_swap` (app.py lines 260-314). -/
def pane_swap (direction : Direction) (layout : LayoutMode) (st : AppState) : AppState :=
  if st.layout_mode = .single then st
  else if st.current_focus = .right ∧ (direction = .right ∨ direction = .down) ∧
      st.layout_mode = layout then st
  else if st.current_focus = .left ∧ (direction = .left ∨ direction = .up) ∧
      st.layout_mode = layout then st
  else
    let st1 :=
      if pane_swapped direction layout st then
        { st with left_pane := st.right_pane, right_pane := st.left_pane }
      else st
    let st2 := { st1 with layout_mode := layout }
    if pane_swapped direction layout st then pane_focus_other st2
    else pane_focus st2.current_focus st2

/-! # Theorems -/

/-! ## Viewport recompute (C1) -/

theorem clamp_selection_mem (fc sel : Int) (hn : 1 ≤ fc) :
    0 ≤ clamp_selection fc sel ∧ clamp_selection fc sel < fc := by
  unfold clamp_selection; split_ifs <;> omega

theorem window_resize_cases (fc h : Int) (w : Int × Int) :
    ((window_resize fc h w).1 = 0 ∧ (window_resize fc h w).2 = min fc h) ∨
    ((window_resize fc h w).1 = w.1 ∧ (window_resize fc h w).2 = w.2 ∧
      min fc h ≤ w.2 - w.1) := by
  unfold window_resize; split_ifs with hc
  · exact Or.inl ⟨by simp, rfl⟩
  · exact Or.inr ⟨rfl, rfl, by omega⟩

theorem window_anchor_cases (fc h sel : Int) (w : Int × Int) :
    ((window_anchor fc h sel w).1 = sel ∧
      (window_anchor fc h sel w).2 = sel + min h fc ∧ sel ≤ w.1) ∨
    ((window_anchor fc h sel w).1 = sel + 1 - min h fc ∧
      (window_anchor fc h sel w).2 = sel + 1 ∧ w.1 < sel ∧ w.2 ≤ sel) ∨
    ((window_anchor fc h sel w).1 = w.1 ∧ (window_anchor fc h sel w).2 = w.2 ∧
      w.1 < sel ∧ sel < w.2) := by
  unfold window_anchor; split_ifs with h1 h2
  · exact Or.inl ⟨rfl, rfl, h1⟩
  · exact Or.inr (Or.inl ⟨rfl, rfl, by omega, h2⟩)
  · exact Or.inr (Or.inr ⟨rfl, rfl, by omega, by omega⟩)

theorem window_clamp_cases (fc h : Int) (w : Int × Int) :
    ((window_clamp fc h w).1 = 0 ∧ (window_clamp fc h w).2 = 0 + min h fc ∧
      fc < w.2 ∧ fc - min h fc < 0) ∨
    ((window_clamp fc h w).1 = fc - min h fc ∧ (window_clamp fc h w).2 = fc ∧
      fc < w.2 ∧ 0 ≤ fc - min h fc) ∨
    ((window_clamp fc h w).1 = 0 ∧ (window_clamp fc h w).2 = 0 + min h fc ∧
      w.2 ≤ fc ∧ w.1 < 0) ∨
    ((window_clamp fc h w).1 = w.1 ∧ (window_clamp fc h w).2 = w.2 ∧
      w.2 ≤ fc ∧ 0 ≤ w.1) := by
  unfold window_clamp
  dsimp only
  split_ifs with h1 h2 h3 <;> simp_all

/-- C1 (amended): for every pane state with `file_count > 0` and
`available_height >= 1`, if the window entering the render recompute is no
wider than the available height - which is the case after any sequence of
scroll and page operations at a fixed height, since scrolls do not touch the
window and page shifts translate it rigidly - then after the recompute
`0 <= first_line <= selection_index < last_line <= file_count` and
`last_line - first_line <= available_height`.  The unamended claim (with
resizes allowed) is refuted by `viewport_shrink_resize_counterexample`. -/
theorem viewport_invariant_after_recompute (height file_count : Int) (s : Viewport)
    (hh : 1 ≤ height) (hn : 1 ≤ file_count)
    (hw : s.last_line - s.first_line ≤ height) :
    0 ≤ (get_formatted_files height file_count s).first_line ∧
    (get_formatted_files height file_count s).first_line ≤
      (get_formatted_files height file_count s).selected_file_index ∧
    (get_formatted_files height file_count s).selected_file_index <
      (get_formatted_files height file_count s).last_line ∧
    (get_formatted_files height file_count s).last_line ≤ file_count ∧
    (get_formatted_files height file_count s).last_line -
      (get_formatted_files height file_count s).first_line ≤ height := by
  obtain ⟨hs0, hs1⟩ := clamp_selection_mem file_count s.selected_file_index hn
  have hgff : get_formatted_files height file_count s =
      ⟨clamp_selection file_count s.selected_file_index,
        (window_clamp file_count height
          (window_anchor file_count height (clamp_selection file_count s.selected_file_index)
            (window_resize file_count height (s.first_line, s.last_line)))).1,
        (window_clamp file_count height
          (window_anchor file_count height (clamp_selection file_count s.selected_file_index)
            (window_resize file_count height (s.first_line, s.last_line)))).2⟩ := rfl
  rw [hgff]
  generalize hsel : clamp_selection file_count s.selected_file_index = sel at *
  have hminle : min file_count height ≤ height := min_le_right _ _
  have hminle2 : min height file_count ≤ height := min_le_left _ _
  have hminfc : min height file_count ≤ file_count := min_le_right _ _
  have hminpos : 1 ≤ min height file_count := le_min hh hn
  have hmineq : min file_count height = min height file_count := min_comm _ _
  rcases window_resize_cases file_count height (s.first_line, s.last_line) with
    ⟨h1a, h1b⟩ | ⟨h1a, h1b, h1c⟩ <;>
  rcases window_anchor_cases file_count height sel
      (window_resize file_count height (s.first_line, s.last_line)) with
    ⟨h2a, h2b, h2c⟩ | ⟨h2a, h2b, h2c, h2d⟩ | ⟨h2a, h2b, h2c, h2d⟩ <;>
  rcases window_clamp_cases file_count height
      (window_anchor file_count height sel
        (window_resize file_count height (s.first_line, s.last_line))) with
    ⟨h3a, h3b, h3c, h3d⟩ | ⟨h3a, h3b, h3c, h3d⟩ | ⟨h3a, h3b, h3c, h3d⟩ |
    ⟨h3a, h3b, h3c, h3d⟩ <;>
    simp only [] at * <;> omega

/-- C1 (counterexample to the unamended claim): with 10 files, the state
`(selection 2, window [0,5))` is a render fixed point at height 5; after a
resize that shrinks the available height to 3, the recompute keeps the
5-row window, so `last_line - first_line = 5 > 3 = available_height`. -/
theorem viewport_shrink_resize_counterexample :
    get_formatted_files 5 10 ⟨2, 0, 5⟩ = ⟨2, 0, 5⟩ ∧
    (get_formatted_files 3 10 ⟨2, 0, 5⟩).last_line -
      (get_formatted_files 3 10 ⟨2, 0, 5⟩).first_line = 5 ∧
    ¬((5 : Int) ≤ 3) := by decide

/-- C1 witness: the amended invariant evaluated on the scenario from the
spec (6 records, height 5, selection reset to 6, window `[0,5)`). -/
theorem viewport_invariant_after_recompute_witness :
    0 ≤ (get_formatted_files 5 6 ⟨6, 0, 5⟩).first_line ∧
    (get_formatted_files 5 6 ⟨6, 0, 5⟩).first_line ≤
      (get_formatted_files 5 6 ⟨6, 0, 5⟩).selected_file_index ∧
    (get_formatted_files 5 6 ⟨6, 0, 5⟩).selected_file_index <
      (get_formatted_files 5 6 ⟨6, 0, 5⟩).last_line ∧
    (get_formatted_files 5 6 ⟨6, 0, 5⟩).last_line ≤ 6 ∧
    (get_formatted_files 5 6 ⟨6, 0, 5⟩).last_line -
      (get_formatted_files 5 6 ⟨6, 0, 5⟩).first_line ≤ 5 :=
  viewport_invariant_after_recompute 5 6 ⟨6, 0, 5⟩ (by norm_num) (by norm_num)
    (by norm_num)

/-! ## Scrolling (C2, C10) -/

/-- C2: with `file_count > 0` and the selection in range, non-cyclic
scrolling always clamps the selection into `[0, file_count-1]`; cyclic
scrolling with `value == 1` wraps modulo `file_count` (Python's floored
`%` is `Int.fmod`); and `page=True` replaces the step by
`available_height // 2`. -/
theorem scroll_selection_clamp (height file_count sel : Int)
    (hn : 0 < file_count) (hs0 : 0 ≤ sel) (hs1 : sel < file_count) (hh : 0 ≤ height) :
    (∀ value : Int, ∀ page : Bool, 0 ≤ value →
      ∃ r, scroll_down false height file_count sel value page false = some r ∧
        0 ≤ r ∧ r < file_count) ∧
    (∀ value : Int, ∀ page : Bool, 0 ≤ value →
      ∃ r, scroll_up false height file_count sel value page false = some r ∧
        0 ≤ r ∧ r < file_count) ∧
    scroll_down true height file_count sel 1 false false =
      some ((sel + 1).fmod file_count) ∧
    scroll_up true height file_count sel 1 false false =
      some ((sel - 1).fmod file_count) ∧
    (∀ (cycle : Bool) (value : Int) (b : Bool),
      scroll_down cycle height file_count sel value true b =
        scroll_down cycle height file_count sel (height.fdiv 2) false b) ∧
    (∀ (cycle : Bool) (value : Int) (b : Bool),
      scroll_up cycle height file_count sel value true b =
        scroll_up cycle height file_count sel (height.fdiv 2) false b) := by
  have hfd : 0 ≤ height.fdiv 2 := Int.fdiv_nonneg hh (by norm_num)
  have hne : file_count ≠ 0 := by omega
  refine ⟨?_, ?_, ?_, ?_, ?_, ?_⟩
  · intro value page hv
    cases page <;> simp only [scroll_down] <;> simp only [Bool.false_eq_true, false_and,
      if_false, ite_true, ite_false] <;> split_ifs <;>
      refine ⟨_, rfl, ?_, ?_⟩ <;> omega
  · intro value page hv
    cases page <;> simp only [scroll_up] <;> simp only [Bool.false_eq_true, false_and,
      if_false, ite_true, ite_false] <;> split_ifs <;>
      refine ⟨_, rfl, ?_, ?_⟩ <;> omega
  · simp [scroll_down, hne]
  · simp [scroll_up, hne]
  · intro cycle value b
    simp [scroll_down]
  · intro cycle value b
    simp [scroll_up]

/-- C2 witness: a pane with 5 files, height 4, selection 2. -/
theorem scroll_selection_clamp_witness :
    ∃ r, scroll_down false 4 5 2 7 false false = some r ∧ 0 ≤ r ∧ r < 5 :=
  (scroll_selection_clamp 4 5 2 (by norm_num) (by norm_num) (by norm_num)
    (by norm_num)).1 7 false (by norm_num)

/-- C10: with cyclic wraparound enabled and `value = 1`, scrolling on an
empty filtered list takes the wrap branch and divides by zero
(`ZeroDivisionError`, modelled as `none`); with `file_count > 0` the wrap
branch always lands in `[0, file_count-1]`. -/
theorem scroll_cycle_requires_nonempty (height sel : Int) :
    scroll_down true height 0 sel 1 false false = none ∧
    scroll_up true height 0 sel 1 false false = none ∧
    (∀ file_count : Int, 0 < file_count →
      ∃ r, scroll_down true height file_count sel 1 false false = some r ∧
        0 ≤ r ∧ r < file_count) ∧
    (∀ file_count : Int, 0 < file_count →
      ∃ r, scroll_up true height file_count sel 1 false false = some r ∧
        0 ≤ r ∧ r < file_count) := by
  refine ⟨?_, ?_, ?_, ?_⟩
  · simp [scroll_down]
  · simp [scroll_up]
  · intro n hnpos
    refine ⟨(sel + 1).fmod n, ?_, ?_, ?_⟩
    · simp [scroll_down, show n ≠ 0 by omega]
    · rw [Int.fmod_eq_emod _ (by omega)]
      exact Int.emod_nonneg _ (by omega)
    · rw [Int.fmod_eq_emod _ (by omega)]
      exact Int.emod_lt_of_pos _ hnpos
  · intro n hnpos
    refine ⟨(sel - 1).fmod n, ?_, ?_, ?_⟩
    · simp [scroll_up, show n ≠ 0 by omega]
    · rw [Int.fmod_eq_emod _ (by omega)]
      exact Int.emod_nonneg _ (by omega)
    · rw [Int.fmod_eq_emod _ (by omega)]
      exact Int.emod_lt_of_pos _ hnpos

/-- C10 witness: wrapping on a 3-element list from selection 2. -/
theorem scroll_cycle_requires_nonempty_witness :
    ∃ r, scroll_down true 4 3 2 1 false false = some r ∧ 0 ≤ r ∧ r < 3 :=
  (scroll_cycle_requires_nonempty 4 2).2.2.1 3 (by norm_num)

/-! ## Hidden-file toggling (C3, C4) -/

/-- C3 (evaluation at the failing input): a pane shows `.a .b c d e` with
`.a`, `.b` hidden and the cursor on `.b` (index 1, reached by moving down).
After hiding hidden files, `filter_files` only rebuilds `_filtered_files`
and never moves `_selected_file_index`, so the cursor lands on `d` - the
record at the old *positional* index in the new filtered list - while the
nearest visible record below `.b` is `c`.  The promised directional shift
(docstrings of `filter_files` and `pane_toggle_hidden_files`) does not
happen. -/
theorem filter_files_keeps_positional_index :
    current_selection (pane_toggle_hidden_files none
        ⟨[⟨".a", .file, "", true, 0⟩, ⟨".b", .file, "", true, 1⟩,
          ⟨"c", .file, "", false, 2⟩, ⟨"d", .file, "", false, 3⟩,
          ⟨"e", .file, "", false, 4⟩],
          [⟨".a", .file, "", true, 0⟩, ⟨".b", .file, "", true, 1⟩,
          ⟨"c", .file, "", false, 2⟩, ⟨"d", .file, "", false, 3⟩,
          ⟨"e", .file, "", false, 4⟩], true, 1⟩) =
      some ⟨"d", .file, "", false, 3⟩ ∧
    ([⟨".b", FileType.file, "", true, 1⟩, ⟨"c", .file, "", false, 2⟩,
        ⟨"d", .file, "", false, 3⟩, ⟨"e", .file, "", false, 4⟩] :
        List File).find? (fun f => !f.hidden) = some ⟨"c", .file, "", false, 2⟩ ∧
    (⟨"d", .file, "", false, 3⟩ : File) ≠ ⟨"c", .file, "", false, 2⟩ := by
  refine ⟨rfl, rfl, by decide⟩

/-- C4 (evaluation at the failing input): `pane_toggle_hidden_files` sets
the flag with `value or not flag`, so an explicit `False` is treated like
"no value" and *flips* the flag instead of setting it: from
`display_hidden = False`, passing `False` yields `True`.  (From `True` it
happens to yield `False`, which is the one case the test suite checks.) -/
theorem pane_toggle_hidden_explicit_false_flips :
    (pane_toggle_hidden_files (some false) ⟨[], [], false, 0⟩).display_hidden = true ∧
    (pane_toggle_hidden_files (some false) ⟨[], [], true, 0⟩).display_hidden = false := by
  exact ⟨rfl, rfl⟩

/-! ## `forward` error fallback (C5) -/

/-- C5 (evaluation at the failing input): in s3 mode, when descending into
the selected directory raises, the except branch calls `self._fs.cd`
(filepane.py line 522) - the local-filesystem adapter - so the pane ends up
with the fs listing of the previous path, not the s3 re-listing of it.
Here the s3 adapter raises on `sub/` and yields `remote` for `bucket`,
while the fs adapter yields `local`: the result is `local`. -/
theorem forward_s3_fallback_uses_fs_adapter :
    forward .s3 (fun _ => some [⟨"local", FileType.file, "", false, 0⟩])
        (fun p => if p = "sub/" then none else some [⟨"remote", FileType.file, "", false, 0⟩])
        "bucket" (some ⟨"sub/", .dir, "", false, 1⟩) [] =
      some [⟨"local", FileType.file, "", false, 0⟩] ∧
    (fun p => if p = "sub/" then none
      else some [⟨"remote", FileType.file, "", false, 0⟩] : String → Option (List File))
        "bucket" = some [⟨"remote", FileType.file, "", false, 0⟩] ∧
    ([⟨"local", FileType.file, "", false, 0⟩] : List File) ≠
      [⟨"remote", FileType.file, "", false, 0⟩] := by
  refine ⟨by decide, by decide, by decide⟩

/-! ## The bounded directory map (C7) -/

theorem check_size_limit_eq_drop (c : Nat) (l : List (String × Int)) :
    check_size_limit c l = l.drop (l.length - c) := by
  induction l with
  | nil => simp [check_size_limit]
  | cons x xs ih =>
    simp only [check_size_limit]
    split_ifs with h
    · rw [ih]
      have hsub : (x :: xs).length - c = (xs.length - c) + 1 := by
        simp only [List.length_cons]; omega
      rw [hsub, List.drop_succ_cons]
    · have hsub : (x :: xs).length - c = 0 := by
        simp only [List.length_cons]; omega
      rw [hsub, List.drop_zero]

theorem check_size_limit_of_le (c : Nat) (l : List (String × Int)) (h : l.length ≤ c) :
    check_size_limit c l = l := by
  rw [check_size_limit_eq_drop]
  have h0 : l.length - c = 0 := by omega
  rw [h0, List.drop_zero]

theorem directory_setitem_length_le (c : Nat) (l : List (String × Int)) (k : String)
    (v : Int) : (directory_setitem c l k v).length ≤ c := by
  unfold directory_setitem
  rw [check_size_limit_eq_drop]
  simp only [List.length_drop]
  split_ifs <;> omega

theorem directory_setitem_shape (c : Nat) (l : List (String × Int)) (k : String) (v : Int)
    (hc : 1 ≤ c) :
    ∃ pre, directory_setitem c l k v = pre ++ [(k, v)] ∧
      (∀ p ∈ pre, ¬p.1 = k) ∧ (∀ p ∈ pre, p ∈ l) := by
  unfold directory_setitem
  set q := if l.any (fun p => p.1 == k) then l.filter (fun p => p.1 != k) ++ [(k, v)]
    else l ++ [(k, v)] with hq
  have hqshape : ∃ q0, q = q0 ++ [(k, v)] ∧ (∀ p ∈ q0, ¬p.1 = k) ∧ (∀ p ∈ q0, p ∈ l) := by
    rw [hq]
    split_ifs with hany
    · refine ⟨l.filter (fun p => p.1 != k), rfl, ?_, ?_⟩
      · intro p hp
        have := (List.mem_filter.mp hp).2
        simpa using this
      · intro p hp
        exact (List.mem_filter.mp hp).1
    · refine ⟨l, rfl, ?_, fun p hp => hp⟩
      intro p hp
      have hf : l.any (fun p => p.1 == k) = false := Bool.eq_false_iff.mpr hany
      have := List.any_eq_false.mp hf p hp
      simpa using this
  obtain ⟨q0, hq0, hq0k, hq0l⟩ := hqshape
  rw [check_size_limit_eq_drop, hq0]
  have hlen : (q0 ++ [(k, v)]).length = q0.length + 1 := by simp
  have hle : (q0 ++ [(k, v)]).length - c ≤ q0.length := by omega
  rw [List.drop_append_of_le_length hle]
  refine ⟨q0.drop ((q0 ++ [(k, v)]).length - c), rfl, ?_, ?_⟩
  · intro p hp
    exact hq0k p (List.mem_of_mem_drop hp)
  · intro p hp
    exact hq0l p (List.mem_of_mem_drop hp)

theorem directory_get_setitem_self (c : Nat) (l : List (String × Int)) (k : String)
    (v : Int) (d : Int) (hc : 1 ≤ c) :
    directory_get (directory_setitem c l k v) k d = v := by
  obtain ⟨pre, hshape, hpre, -⟩ := directory_setitem_shape c l k v hc
  rw [hshape]
  unfold directory_get
  rw [List.find?_append]
  have hnone : pre.find? (fun p => p.1 == k) = none := by
    rw [List.find?_eq_none]
    intro p hp
    simpa using hpre p hp
  simp [hnone, List.find?]

theorem directory_get_setitem_other (c : Nat) (pre : List (String × Int)) (k k' : String)
    (v v' d : Int) (hc : 2 ≤ c) (hlen : pre.length + 1 ≤ c) (hkk : ¬k' = k)
    (hpre : ∀ p ∈ pre, ¬p.1 = k') :
    directory_get (directory_setitem c (pre ++ [(k', v')]) k v) k' d = v' := by
  suffices H : ∀ pre' : List (String × Int), (∀ p ∈ pre', ¬p.1 = k') →
      pre'.length + 1 ≤ c →
      directory_get (check_size_limit c ((pre' ++ [(k', v')]) ++ [(k, v)])) k' d = v' by
    unfold directory_setitem
    split_ifs with hany
    · have hfilter : (pre ++ [(k', v')]).filter (fun p => p.1 != k) =
          pre.filter (fun p => p.1 != k) ++ [(k', v')] := by
        rw [List.filter_append]
        congr 1
        simp [bne_iff_ne, hkk]
      rw [hfilter]
      refine H (pre.filter (fun p => p.1 != k)) ?_ ?_
      · intro p hp
        exact hpre p (List.mem_filter.mp hp).1
      · have := List.length_filter_le (fun p => p.1 != k) pre
        omega
    · exact H pre hpre hlen
  intro pre' hpre' hlen'
  rw [check_size_limit_eq_drop]
  have hlen2 : ((pre' ++ [(k', v')]) ++ [(k, v)]).length = pre'.length + 2 := by simp
  rw [hlen2]
  have hn1 : pre'.length + 2 - c ≤ (pre' ++ [(k', v')]).length := by simp; omega
  have hn2 : pre'.length + 2 - c ≤ pre'.length := by omega
  rw [List.drop_append_of_le_length hn1, List.drop_append_of_le_length hn2]
  unfold directory_get
  rw [List.find?_append, List.find?_append]
  have hnone : (pre'.drop (pre'.length + 2 - c)).find? (fun p => p.1 == k') = none := by
    rw [List.find?_eq_none]
    intro p hp
    simpa using hpre' p (List.mem_of_mem_drop hp)
  simp [hnone, List.find?]

/-- C7: a `Directory` write never leaves more entries than the capacity;
writing a new key when full evicts the oldest (front) entry; re-writing an
existing key re-inserts it at the most-recent (back) position; and with
capacity 2 the writes `/a`, `/b`, `/c` leave exactly `[/b, /c]`. -/
theorem directory_bounded_lru :
    (∀ (c : Nat) (l : List (String × Int)) (k : String) (v : Int),
      (directory_setitem c l k v).length ≤ c) ∧
    (∀ (c : Nat) (l : List (String × Int)) (k : String) (v : Int),
      1 ≤ c → l.length = c → (∀ p ∈ l, ¬p.1 = k) →
      directory_setitem c l k v = l.drop 1 ++ [(k, v)]) ∧
    (∀ (c : Nat) (l : List (String × Int)) (k : String) (v : Int),
      l.length ≤ c → (∃ p ∈ l, p.1 = k) →
      (directory_setitem c l k v).getLast? = some (k, v)) ∧
    directory_setitem 2 (directory_setitem 2 (directory_setitem 2 [] "/a" 0) "/b" 1)
      "/c" 2 = [("/b", 1), ("/c", 2)] := by
  refine ⟨directory_setitem_length_le, ?_, ?_, by decide⟩
  · intro c l k v hc hfull hnew
    unfold directory_setitem
    have hany : l.any (fun p => p.1 == k) = false := by
      rw [List.any_eq_false]
      intro p hp
      simpa using hnew p hp
    rw [if_neg (by simp [hany])]
    rw [check_size_limit_eq_drop]
    have h1 : (l ++ [(k, v)]).length - c = 1 := by simp; omega
    rw [h1, List.drop_append_of_le_length (by omega)]
  · intro c l k v hlen hex
    obtain ⟨p, hp, hpk⟩ := hex
    unfold directory_setitem
    have hany : l.any (fun p => p.1 == k) = true :=
      List.any_eq_true.mpr ⟨p, hp, by simp [hpk]⟩
    rw [if_pos (by simp [hany])]
    have hflt : (l.filter (fun p => p.1 != k)).length < l.length := by
      rw [List.length_filter_lt_length_iff_exists]
      exact ⟨p, hp, by simp [hpk]⟩
    rw [check_size_limit_of_le _ _ (by simp; omega)]
    exact List.getLast?_concat _

/-- C7 witness: a full 3-entry map evicting its oldest key on a new write,
and the unconditional capacity bound at that input. -/
theorem directory_bounded_lru_witness :
    directory_setitem 3 [("/x", 5), ("/y", 6), ("/z", 7)] "/w" 8 =
      [("/y", 6), ("/z", 7), ("/w", 8)] ∧
    (directory_setitem 3 [("/x", 5), ("/y", 6), ("/z", 7)] "/w" 8).length ≤ 3 := by
  constructor
  · exact directory_bounded_lru.2.1 3 [("/x", 5), ("/y", 6), ("/z", 7)] "/w" 8
      (by norm_num) (by decide) (by decide)
  · exact directory_bounded_lru.1 3 [("/x", 5), ("/y", 6), ("/z", 7)] "/w" 8

/-! ## The `hist_dir` decorator (C6) -/

theorem hist_dir_changed (nav : HistPaneState → HistPaneState) (st : HistPaneState)
    (B : String) (hB : ¬B = st.path)
    (hnav : ∀ s, (nav s).path = B ∧ (nav s).directory = s.directory ∧
      (nav s).size_limit = s.size_limit) :
    (hist_dir nav st).path = B ∧
    (hist_dir nav st).directory =
      directory_setitem st.size_limit st.directory st.path st.selected_file_index ∧
    (hist_dir nav st).size_limit = st.size_limit ∧
    (hist_dir nav st).selected_file_index =
      directory_get (directory_setitem st.size_limit st.directory st.path
        st.selected_file_index) B 0 := by
  obtain ⟨h1, h2, h3⟩ := hnav { st with
    directory := directory_setitem st.size_limit st.directory st.path st.selected_file_index }
  simp only [hist_dir]
  rw [h1, if_neg hB]
  simp [h1, h2, h3]

theorem hist_dir_unchanged (nav : HistPaneState → HistPaneState) (st : HistPaneState)
    (hnav : ∀ s, (nav s).path = s.path ∧ (nav s).directory = s.directory ∧
      (nav s).size_limit = s.size_limit) :
    (hist_dir nav st).path = st.path ∧
    (hist_dir nav st).directory =
      directory_setitem st.size_limit
        (directory_setitem st.size_limit st.directory st.path st.selected_file_index)
        st.path (directory_get st.directory st.path 0) := by
  obtain ⟨h1, h2, h3⟩ := hnav { st with
    directory := directory_setitem st.size_limit st.directory st.path st.selected_file_index }
  simp only [hist_dir]
  rw [h1]
  simp [h1, h2, h3]

/-- C6: with a history capacity of at least 2, leaving directory `A` for
`B` records `A`'s selection; arriving at `B` loads `B`'s remembered index
(default 0 through `directory_get`); scrolling inside `B` and returning to
`A` restores exactly the selection recorded when `A` was left; and a
navigation that leaves the path unchanged restores the history entry of
that path to its pre-attempt value.  The navigation steps `nav1`/`nav2`/
`nav3` model `cd` operations: they move the pane's path and do not touch
the shared directory map. -/
theorem hist_dir_history_round_trip
    (st : HistPaneState) (nav1 nav2 nav3 : HistPaneState → HistPaneState)
    (B : String) (midSel : Int)
    (hc : 2 ≤ st.size_limit)
    (hAB : ¬B = st.path)
    (hnav1 : ∀ s, (nav1 s).path = B ∧ (nav1 s).directory = s.directory ∧
      (nav1 s).size_limit = s.size_limit)
    (hnav2 : ∀ s, (nav2 s).path = st.path ∧ (nav2 s).directory = s.directory ∧
      (nav2 s).size_limit = s.size_limit)
    (hnav3 : ∀ s, (nav3 s).path = s.path ∧ (nav3 s).directory = s.directory ∧
      (nav3 s).size_limit = s.size_limit) :
    (hist_dir nav1 st).path = B ∧
    (hist_dir nav1 st).selected_file_index =
      directory_get (directory_setitem st.size_limit st.directory st.path
        st.selected_file_index) B 0 ∧
    (hist_dir nav2 { hist_dir nav1 st with selected_file_index := midSel }).path = st.path ∧
    (hist_dir nav2 { hist_dir nav1 st with
      selected_file_index := midSel }).selected_file_index = st.selected_file_index ∧
    directory_get (hist_dir nav3 st).directory st.path 0 =
      directory_get st.directory st.path 0 := by
  obtain ⟨r1p, r1d, r1s, r1sel⟩ := hist_dir_changed nav1 st B hAB hnav1
  have hm_path : ({ hist_dir nav1 st with selected_file_index := midSel } :
      HistPaneState).path = B := r1p
  have hm_dir : ({ hist_dir nav1 st with selected_file_index := midSel } :
      HistPaneState).directory =
      directory_setitem st.size_limit st.directory st.path st.selected_file_index := r1d
  have hm_size : ({ hist_dir nav1 st with selected_file_index := midSel } :
      HistPaneState).size_limit = st.size_limit := r1s
  have hBA : ¬st.path = ({ hist_dir nav1 st with selected_file_index := midSel } :
      HistPaneState).path := by
    rw [hm_path]
    exact fun h => hAB h.symm
  obtain ⟨r2p, r2d, r2s, r2sel⟩ := hist_dir_changed nav2
    { hist_dir nav1 st with selected_file_index := midSel } st.path hBA hnav2
  refine ⟨r1p, r1sel, r2p, ?_, ?_⟩
  · rw [r2sel, hm_size, hm_dir, hm_path]
    obtain ⟨pre, hshape, hprek, -⟩ :=
      directory_setitem_shape st.size_limit st.directory st.path st.selected_file_index
        (by omega)
    have hd1len := directory_setitem_length_le st.size_limit st.directory st.path
      st.selected_file_index
    rw [hshape] at hd1len ⊢
    have hplen : pre.length + 1 ≤ st.size_limit := by
      simpa using hd1len
    simp only []
    exact directory_get_setitem_other st.size_limit pre B st.path midSel
      st.selected_file_index 0 hc hplen (fun h => hAB h.symm) hprek
  · obtain ⟨r3p, r3d⟩ := hist_dir_unchanged nav3 st hnav3
    rw [r3d]
    exact directory_get_setitem_self st.size_limit _ st.path _ 0 (by omega)

/-- C6 witness: starting at `/A` with selection 7, entering `/B`, scrolling
to 3 and returning to `/A` restores selection 7. -/
theorem hist_dir_history_round_trip_witness :
    (hist_dir (fun s => { s with path := "/A", selected_file_index := 0 })
      { hist_dir (fun s => { s with path := "/B", selected_file_index := 0 })
          (⟨"/A", 7, [], 2⟩ : HistPaneState) with
        selected_file_index := 3 }).selected_file_index = 7 :=
  (hist_dir_history_round_trip ⟨"/A", 7, [], 2⟩
    (fun s => { s with path := "/B", selected_file_index := 0 })
    (fun s => { s with path := "/A", selected_file_index := 0 })
    (fun s => s) "/B" 3 (by norm_num) (by decide)
    (fun s => ⟨rfl, rfl, rfl⟩) (fun s => ⟨rfl, rfl, rfl⟩)
    (fun s => ⟨rfl, rfl, rfl⟩)).2.2.2.1

/-! ## Action multiplier (C8) -/

/-- C8: with the bindings activated and no pending multiplier, pressing
`2` then `3` accumulates 23; the next scroll action moves by exactly 23
(overriding the caller default of 1) and clears the multiplier; the
following scroll without digits moves by the default 1.  Digit bindings
(registered `raw`) never clear a pending multiplier, and every non-digit
action clears it after running. -/
theorem action_multiplier_consumption (height file_count sel : Int)
    (hroom : sel + 24 < file_count) :
    kb_run false height file_count ⟨true, none, sel⟩ [.digit 2, .digit 3] =
      some ⟨true, some 23, sel⟩ ∧
    kb_run false height file_count ⟨true, none, sel⟩ [.digit 2, .digit 3, .scroll_key] =
      some ⟨true, none, sel + 23⟩ ∧
    kb_run false height file_count ⟨true, none, sel⟩
        [.digit 2, .digit 3, .scroll_key, .scroll_key] =
      some ⟨true, none, sel + 24⟩ ∧
    (∀ (st : KBState) (d : Nat), st.activated = true →
      kb_step false height file_count st (.digit d) =
        some { st with action_multiplier := set_action_multiplier d st.action_multiplier } ∧
      set_action_multiplier d st.action_multiplier ≠ none) ∧
    (∀ st : KBState, st.activated = true →
      kb_step false height file_count st .other_action =
        some { st with action_multiplier := none }) := by
  have h23 : ¬file_count ≤ sel + 23 := by omega
  refine ⟨?_, ?_, ?_, ?_, ?_⟩
  · simp [kb_run, kb_step, set_action_multiplier, List.foldlM]
  · simp [kb_run, kb_step, set_action_multiplier, scroll_down, List.foldlM, h23]
  · simp [kb_run, kb_step, set_action_multiplier, scroll_down, List.foldlM, h23]
    rw [if_neg (by omega)]
    simp only [Option.some.injEq]
    omega
  · intro st d hact
    refine ⟨by simp [kb_step, hact], ?_⟩
    cases st.action_multiplier with
    | none => simp [set_action_multiplier]
    | some v =>
      simp only [set_action_multiplier]
      split_ifs <;> simp
  · intro st hact
    simp [kb_step, hact]

/-- C8 witness: on a 30-file pane, `2 3 scroll` moves the selection from 0
to 23 and clears the multiplier. -/
theorem action_multiplier_consumption_witness :
    kb_run false 4 30 ⟨true, none, 0⟩ [.digit 2, .digit 3, .scroll_key] =
      some ⟨true, none, 23⟩ :=
  (action_multiplier_consumption 4 30 0 (by norm_num)).2.1

/-! ## Pane swap no-op (C9) -/

/-- C9: when the no-op predicate holds - single layout, or the focus is
already on the pane the direction points away from while the layout
already equals the target - `pane_swap` returns before mutating anything,
so the whole application state (focus, layout, both pane identities) is
unchanged. -/
theorem pane_swap_noop (st : AppState) (direction : Direction) (layout : LayoutMode)
    (hnoop : st.layout_mode = .single ∨
      (st.current_focus = .right ∧ (direction = .right ∨ direction = .down) ∧
        st.layout_mode = layout) ∨
      (st.current_focus = .left ∧ (direction = .left ∨ direction = .up) ∧
        st.layout_mode = layout)) :
    pane_swap direction layout st = st := by
  unfold pane_swap
  split_ifs with h1 h2 h3 <;>
    first
    | rfl
    | (exfalso; rcases hnoop with h | h | h <;> tauto)

/-- C9 witness: focus on the right pane, vertical layout, swapping right
towards vertical is a no-op. -/
theorem pane_swap_noop_witness :
    pane_swap .right .vertical ⟨.right, none, .right, .vertical, .normal, 0, 1⟩ =
      ⟨.right, none, .right, .vertical, .normal, 0, 1⟩ :=
  pane_swap_noop ⟨.right, none, .right, .vertical, .normal, 0, 1⟩ .right .vertical
    (Or.inr (Or.inl ⟨rfl, Or.inl rfl, rfl⟩))

end S3fm
